import Mathlib

/-!
Verification of the BGP-4 speaker core in `pybal/bgp/bgp.py`.

The Python source is shallowly embedded: bytes are natural numbers below 256,
byte strings are `List Nat`, Python sets that only get popped and re-added are
lists (the pop order of a Python `set` is unspecified; a list head models it),
raised exceptions are `Except`/`Option` error values, and methods with side
effects return the updated record together with the observable actions they
performed.  The classes `IPv4IP`/`IPv6IP`/`IPPrefix` live in the repository's
`ip` module, which is not part of the sources here; `IPPrefix` is modelled from
the spec where noted.
-/

namespace PyBal

/-! ## Constants (bgp.py lines 41-131) -/

def VERSION : Nat := 4

def HDR_LEN : Nat := 19

def MAX_LEN : Nat := 4096

def MSG_OPEN : Nat := 1

def MSG_UPDATE : Nat := 2

def MSG_NOTIFICATION : Nat := 3

def MSG_KEEPALIVE : Nat := 4

def ST_IDLE : Nat := 0

def ST_CONNECT : Nat := 1

def ST_ACTIVE : Nat := 2

def ST_OPENSENT : Nat := 3

def ST_OPENCONFIRM : Nat := 4

def ST_ESTABLISHED : Nat := 5

def ERR_MSG_HDR : Nat := 1

def ERR_MSG_OPEN : Nat := 2

def ERR_MSG_UPDATE : Nat := 3

def ERR_HOLD_TIMER_EXPIRED : Nat := 4

def ERR_FSM : Nat := 5

def ERR_CEASE : Nat := 6

def ERR_MSG_HDR_CONN_NOT_SYNC : Nat := 1

def ERR_MSG_HDR_BAD_MSG_LEN : Nat := 2

def ERR_MSG_HDR_BAD_MSG_TYPE : Nat := 3

def ERR_MSG_OPEN_UNSUP_VERSION : Nat := 1

def ERR_MSG_OPEN_BAD_PEER_AS : Nat := 2

def ERR_MSG_OPEN_BAD_BGP_ID : Nat := 3

def ERR_MSG_OPEN_UNACCPT_HOLD_TIME : Nat := 6

def ERR_MSG_UPDATE_MALFORMED_ATTR_LIST : Nat := 1

def ERR_MSG_UPDATE_UNRECOGNIZED_WELLKNOWN_ATTR : Nat := 2

def ERR_MSG_UPDATE_ATTR_FLAGS : Nat := 4

def ERR_MSG_UPDATE_OPTIONAL_ATTR : Nat := 9

def ERR_MSG_UPDATE_INVALID_NETWORK_FIELD : Nat := 10

def ATTR_OPTIONAL : Nat := 128

def ATTR_TRANSITIVE : Nat := 64

def ATTR_PARTIAL : Nat := 32

def ATTR_EXTENDED_LEN : Nat := 16

def AFI_INET : Nat := 1

def AFI_INET6 : Nat := 2

def SAFI_UNICAST : Nat := 1

def SAFI_MULTICAST : Nat := 2

/-! ## Python-level failures

A Python statement either raises or succeeds; the embedded methods surface a
raise as an `Option PyError` (or `Except PyError`) alongside the state they had
built up to that point. -/

inductive PyError where
  /-- An attribute lookup on a name the object does not have (Python
  `AttributeError`), as raised by `self.KeepAliveTimer` in `FSM.openReceived`
  and by `BGP.encodedPrefixes` in `MPUnreachNLRIAttribute.encode`. -/
  | attributeError : PyError
  /-- The exception `NotificationSent(protocol, error, suberror, data)`. -/
  | notificationSent (error suberror : Nat) (data : List Nat) : PyError
deriving DecidableEq, Repr

/-! ## FSM state record (bgp.py lines 804-866)

A timer is `some d` when armed to fire in `d` seconds and `none` when not
running; `BGPTimer.reset d` stores `some d`, `BGPTimer.cancel` stores `none`,
`BGPTimer.active()` is `Option.isSome`. -/

structure FSMModel where
  state : Nat
  holdTime : Nat
  keepAliveTime : Nat
  connectRetryCounter : Nat
  connectRetryTime : Nat
  connectRetryTimer : Option Nat
  holdTimer : Option Nat
  keepAliveTimer : Option Nat
  delayOpen : Bool
  delayOpenTime : Nat
  delayOpenTimer : Option Nat
  idleHoldTime : Nat
  idleHoldTimer : Option Nat
deriving DecidableEq, Repr

/-- Observable calls the FSM makes on its protocol / peering collaborators. -/
inductive FSMAction where
  | completeInit : FSMAction
  | sendOpen : FSMAction
  | sendKeepAlive : FSMAction
  | sendNotification (error suberror : Nat) : FSMAction
  | runCollisionDetect : FSMAction
deriving DecidableEq, Repr

/-- Embeds `FSM._errorClose` (bgp.py lines 1218-1234): cancel the
connectRetry, delayOpen, hold and keepAlive timers, release resources, close
the connection, increment the ConnectRetry counter and go to Idle. -/
def FSMModel.errorClose (fsm : FSMModel) : FSMModel :=
  { fsm with
    connectRetryTimer := none
    delayOpenTimer := none
    holdTimer := none
    keepAliveTimer := none
    connectRetryCounter := fsm.connectRetryCounter + 1
    state := ST_IDLE }

/-- Embeds `FSM.openReceived` (bgp.py lines 965-1011, events 19/20).  Returns
the FSM record as left when the method returns or raises, the protocol calls
it made in order, and the exception it raised, if any.

In the Connect/Active branch with the DelayOpenTimer running and a non-zero
hold time, the source executes `self.KeepAliveTimer.reset(self.keepAliveTime)`;
FSM instances define `keepAliveTimer` (lower-case k) and no `KeepAliveTimer`,
so Python raises `AttributeError` there, after the OPEN and KEEPALIVE were
sent but before any timer is armed and before `self.state = ST_OPENCONFIRM`.
(The following line, `self.holdTimer.reset(self.holdTimer)`, passes a timer
object where seconds are expected and could also never execute correctly.) -/
def FSMModel.openReceived (fsm : FSMModel) :
    FSMModel × List FSMAction × Option PyError :=
  if fsm.state = ST_CONNECT ∨ fsm.state = ST_ACTIVE then
    if fsm.delayOpenTimer.isSome then
      -- State Connect, event 20
      let fsm1 := { fsm with connectRetryTimer := none, delayOpenTimer := none }
      if fsm.holdTime ≠ 0 then
        (fsm1, [.completeInit, .sendOpen, .sendKeepAlive], some .attributeError)
      else
        ({ fsm1 with keepAliveTimer := none, holdTimer := none,
                     state := ST_OPENCONFIRM },
         [.completeInit, .sendOpen, .sendKeepAlive], none)
    else
      -- State Connect, event 19
      (fsm.errorClose, [], none)
  else if fsm.state = ST_OPENSENT then
    -- State OpenSent, events 19, 20
    let fsm1 := { fsm with delayOpenTimer := none, connectRetryTimer := none }
    if fsm.holdTime > 0 then
      ({ fsm1 with keepAliveTimer := some fsm.keepAliveTime,
                   holdTimer := some fsm.holdTime, state := ST_OPENCONFIRM },
       [.sendKeepAlive], none)
    else
      ({ fsm1 with state := ST_OPENCONFIRM }, [.sendKeepAlive], none)
  else if fsm.state = ST_OPENCONFIRM then
    -- State OpenConfirm, events 19, 20: perform collision detection
    (fsm, [.runCollisionDetect], none)
  else if fsm.state = ST_ESTABLISHED then
    -- State Established, event 19 or 20
    (fsm.errorClose, [.sendNotification ERR_FSM 0],
     some (.notificationSent ERR_FSM 0 []))
  else
    (fsm, [], none)

/-- Embeds `BGP.negotiateHoldTime` (bgp.py lines 1717-1728): sets
`fsm.holdTime` to the minimum of the current (local) hold time and the peer's;
if that minimum is non-zero and below 3, calls
`fsm.openMessageError(ERR_MSG_OPEN_UNACCPT_HOLD_TIME)`, which sends the
NOTIFICATION, error-closes and raises, so `keepAliveTime` is not updated;
otherwise sets `keepAliveTime` to the new hold time divided by 3 (Python 2
integer division). -/
def negotiateHoldTime (fsm : FSMModel) (holdTime : Nat) :
    FSMModel × Option PyError :=
  let fsm1 := { fsm with holdTime := min fsm.holdTime holdTime }
  if fsm1.holdTime ≠ 0 ∧ fsm1.holdTime < 3 then
    (fsm1.errorClose,
     some (.notificationSent ERR_MSG_OPEN ERR_MSG_OPEN_UNACCPT_HOLD_TIME []))
  else
    ({ fsm1 with keepAliveTime := fsm1.holdTime / 3 }, none)

/-! ## IP prefixes

The repository's `ip` module (classes `IPv4IP`, `IPv6IP`, `IPPrefix`) is not
among the sources; the spec describes it in §3 ("IP primitives"). -/

/-- Modelled from the spec: class `IPPrefix` of the repository's `ip` module is
missing from the sources.  Per the spec an `IPPrefix` is a pair
`(address, prefix_length)` over a tagged address family, with the invariant
that bits beyond `prefix_length` are zero in the stored address; prefix length
is bounded by the family (≤32 for IPv4, ≤128 for IPv6); prefixes are
value-equal by (family, length, bits).  The address is stored here as its
canonical packed big-endian octets (4 octets for IPv4, 16 for IPv6);
`len(prefix)` is the prefix length and `packed()` the address octets. -/
structure IPPrefix where
  afi : Nat
  plen : Nat
  addr : List Nat
deriving DecidableEq, Repr

def IPPrefix.packed (p : IPPrefix) : List Nat := p.addr

/-- Octet width of a packed address of the given family. -/
def famOctets (afi : Nat) : Nat := if afi = AFI_INET then 4 else 16

/-- Modelled from the spec: constructing `IPPrefix((prefixData, prefixLen),
addressFamily)` from a decoded octet list stores the octets padded on the
right with zero octets to the family's packed width (bits beyond the prefix
length decode as zero). -/
def IPPrefix.ofOctets (octets : List Nat) (plen afi : Nat) : IPPrefix :=
  { afi := afi, plen := plen,
    addr := octets.take (famOctets afi)
            ++ List.replicate (famOctets afi - octets.length) 0 }

/-- Python's `b & (255 << (8 - r))`: clear the low `8 - r` bits of an octet. -/
def maskOctet (r b : Nat) : Nat := Nat.land b (255 <<< (8 - r))

/-- Zero all bits beyond the first `bits` bits of an octet string: octet `i` is
kept whole while `8*(i+1) ≤ bits`, cleared to zero once `8*i ≥ bits`, and has
its low bits cleared in between.  An address satisfies the spec's "bits beyond
`prefix_length` are zero" invariant exactly when it is a fixpoint. -/
def addrMask : Nat → List Nat → List Nat
  | _, [] => []
  | bits, b :: rest =>
      (if 8 ≤ bits then b else if bits = 0 then 0 else maskOctet bits b)
        :: addrMask (bits - 8) rest

/-- Validity of an `IPPrefix` per the spec's data-model invariants: packed
width matches the family, octets are bytes, the prefix length is within the
family bound, the family is IPv4 or IPv6, and bits beyond the prefix length
are zero in the stored address. -/
def IPPrefix.valid (p : IPPrefix) : Prop :=
  p.addr.length = famOctets p.afi ∧
  (∀ b ∈ p.addr, b < 256) ∧
  p.plen ≤ 8 * famOctets p.afi ∧
  (p.afi = AFI_INET ∨ p.afi = AFI_INET6) ∧
  addrMask p.plen p.addr = p.addr

instance (p : IPPrefix) : Decidable p.valid := by
  unfold IPPrefix.valid; infer_instance

/-- Number of octets a prefix of `plen` bits occupies on the wire:
`plen / 8`, plus one when the length does not fall on an octet boundary
(bgp.py lines 1762-1765, 1849-1852, 1877-1880). -/
def octetLen (plen : Nat) : Nat := plen / 8 + if plen % 8 > 0 then 1 else 0

/-- Embeds static method `BGP.encodePrefixes` (bgp.py lines 1871-1884): each
prefix becomes one length octet followed by the first `octetLen` octets of its
packed address. -/
def encodePrefixes : List IPPrefix → List Nat
  | [] => []
  | p :: rest =>
      (p.plen :: p.packed.take (octetLen p.plen)) ++ encodePrefixes rest

/-- Python's `prefixData[-1] = prefixData[-1] & (255 << (8 - remainder))`:
mask the last element of a non-empty octet list. -/
def maskLast (r : Nat) : List Nat → List Nat
  | [] => []
  | [b] => [maskOctet r b]
  | b :: x :: xs => b :: maskLast r (x :: xs)

inductive PrefixParseError where
  /-- `BGPException(ERR_MSG_UPDATE, ERR_MSG_UPDATE_INVALID_NETWORK_FIELD)`. -/
  | bgpException (error suberror : Nat) : PrefixParseError
  /-- Python `IndexError` from `prefixData[-1]` on an empty slice (a prefix
  length octet announcing octets the data does not contain). -/
  | indexError : PrefixParseError
deriving DecidableEq, Repr

/-- Embeds static method `BGP.parseEncodedPrefixList` (bgp.py lines
1750-1778): repeatedly read one prefix-length octet, reject lengths above the
family bound with `(ERR_MSG_UPDATE, ERR_MSG_UPDATE_INVALID_NETWORK_FIELD)`,
take the next `octetLen` octets, zero the bits beyond the prefix length in the
last octet when the length does not fall on an octet boundary, and build an
`IPPrefix` from the result. -/
def parseEncodedPrefixList (addressFamily : Nat) :
    List Nat → Except PrefixParseError (List IPPrefix)
  | [] => .ok []
  | prefixLen :: rest =>
      if (addressFamily = AFI_INET ∧ 32 < prefixLen)
          ∨ (addressFamily = AFI_INET6 ∧ 128 < prefixLen) then
        .error (.bgpException ERR_MSG_UPDATE ERR_MSG_UPDATE_INVALID_NETWORK_FIELD)
      else
        let oLen := octetLen prefixLen
        let prefixData := rest.take oLen
        if prefixLen % 8 > 0 ∧ prefixData = [] then
          .error .indexError
        else
          let pd := if prefixLen % 8 > 0 then maskLast (prefixLen % 8) prefixData
                    else prefixData
          match parseEncodedPrefixList addressFamily (rest.drop oLen) with
          | .ok ps => .ok (IPPrefix.ofOctets pd prefixLen addressFamily :: ps)
          | .error e => .error e
termination_by l => l.length
decreasing_by
  simp only [List.length_drop, List.length_cons]
  omega

/-! ## The UPDATE packer (bgp.py lines 1246-1387, 1828-1869) -/

/-- Zero-padding take, as `struct.pack_into("!B%ds" % octetLen, ...)` behaves:
an `s`-format field shorter than its width is padded with zero bytes. -/
def sTake (n : Nat) (l : List Nat) : List Nat :=
  l.take n ++ List.replicate (n - l.length) 0

/-- The octets `BGP.encodeSomePrefixes` writes for one prefix: the length
octet, then the first `octetLen` octets of the packed address, zero-padded to
`octetLen` by the `%ds` struct format. -/
def packedPrefix (p : IPPrefix) : List Nat :=
  p.plen :: sTake (octetLen p.plen) p.packed

/-- Embeds the loop of static method `BGP.encodeSomePrefixes` (bgp.py lines
1828-1869), with the prefix set as a list popped from the front and the
destination `bArray` growth returned as the written octets: pop a prefix; if
`maxLen - bytesWritten ≥ octetLen + 1` write its encoding and continue,
otherwise put it back and stop.  Returns (prefixes added, octets written,
prefixes left in the set). -/
def encodeSomePrefixesAux (maxLen : Nat) :
    List IPPrefix → Nat → Nat × List Nat × List IPPrefix
  | [], _ => (0, [], [])
  | p :: rest, bytesWritten =>
      let oLen := octetLen p.plen
      if oLen + 1 ≤ maxLen - bytesWritten then
        let r := encodeSomePrefixesAux maxLen rest (bytesWritten + (oLen + 1))
        (r.1 + 1, packedPrefix p ++ r.2.1, r.2.2)
      else
        (0, [], p :: rest)

def encodeSomePrefixes (prefixSet : List IPPrefix) (maxLen : Nat) :
    Nat × List Nat × List IPPrefix :=
  encodeSomePrefixesAux maxLen prefixSet 0

/-- Embeds `BGPUpdateMessage` (bgp.py lines 1325-1387): the four-segment
buffer `(header, withdrawn block, attributes block, NLRI block)`, keeping the
variable octets of each block (the 19 header octets and the two 2-octet block
length prefixes are accounted for in `wireLen`). -/
structure BGPUpdateMessage where
  withdrawals : List Nat
  attributes : List Nat
  nlri : List Nat
deriving DecidableEq, Repr

/-- Total encoded size, Python `len(self)`: the 19-octet header, each block's
2-octet length prefix plus its payload, and the NLRI octets. -/
def BGPUpdateMessage.wireLen (m : BGPUpdateMessage) : Nat :=
  HDR_LEN + (2 + m.withdrawals.length) + (2 + m.attributes.length)
    + m.nlri.length

/-- Embeds `BGPMessage.freeSpace`: `MAX_LEN - len(self)`. -/
def BGPUpdateMessage.freeSpace (m : BGPUpdateMessage) : Nat :=
  MAX_LEN - m.wireLen

/-- A freshly constructed `BGPUpdateMessage()`: empty blocks. -/
def BGPUpdateMessage.empty : BGPUpdateMessage :=
  { withdrawals := [], attributes := [], nlri := [] }

/-- Embeds `BGPUpdateMessage.addSomeWithdrawals` (bgp.py lines 1340-1354):
encode as many prefixes from the set as fit in `freeSpace()` into the
withdrawn block, update the block and message lengths, and return the count
together with what is left of the set. -/
def BGPUpdateMessage.addSomeWithdrawals (m : BGPUpdateMessage)
    (withdrawalSet : List IPPrefix) :
    BGPUpdateMessage × Nat × List IPPrefix :=
  let r := encodeSomePrefixes withdrawalSet m.freeSpace
  ({ m with withdrawals := m.withdrawals ++ r.2.1 }, r.1, r.2.2)

/-- Embeds `MPUnreachNLRIAttribute.encode` (bgp.py lines 683-688).  After
destructuring `self.value` into `(afi, safi, nlri)`, the body evaluates
`BGP.encodedPrefixes(nlri)`; class `BGP` has no attribute `encodedPrefixes`
(the prefix encoder is `BGP.encodePrefixes`), so Python raises
`AttributeError` before any octet is produced, whatever the value. -/
def mpUnreachNLRIEncode (value : Nat × Nat × List IPPrefix) :
    Except PyError (List Nat) :=
  Except.error PyError.attributeError

/-! ## Buffer framing (bgp.py lines 1552-1601) -/

inductive ParseBufferResult where
  /-- `parseBuffer` returned `False`: not enough octets buffered yet. -/
  | needMoreData : ParseBufferResult
  /-- `self.fsm.headerError(suberror, data)` was invoked, which sends
  NOTIFICATION `(ERR_MSG_HDR, suberror, data)` and raises. -/
  | headerError (error suberror : Nat) (data : List Nat) : ParseBufferResult
  /-- A whole message of the given type was sliced off and dispatched to its
  parser (`parseOpen` / `parseUpdate` / `parseKeepAlive` /
  `parseNotification`). -/
  | dispatched (msgType : Nat) (body : List Nat) : ParseBufferResult
deriving DecidableEq, Repr

/-- Embeds `BGP.parseBuffer` (bgp.py lines 1552-1601) up to message dispatch:
require a whole 19-octet header, check the all-ones marker, unpack the 16-bit
length and 8-bit type, check `HDR_LEN ≤ length ≤ MAX_LEN`, wait for the whole
message, and dispatch known types; an unknown type raises header error
`(ERR_MSG_HDR, ERR_MSG_HDR_BAD_MSG_TYPE)` carrying the type octet. -/
def parseBuffer (buf : List Nat) : ParseBufferResult :=
  if buf.length < HDR_LEN then
    .needMoreData
  else if buf.take 16 ≠ List.replicate 16 255 then
    .headerError ERR_MSG_HDR ERR_MSG_HDR_CONN_NOT_SYNC []
  else
    let length := 256 * buf.getD 16 0 + buf.getD 17 0
    let msgType := buf.getD 18 0
    if length < HDR_LEN ∨ MAX_LEN < length then
      .headerError ERR_MSG_HDR ERR_MSG_HDR_BAD_MSG_LEN
        [length / 256 % 256, length % 256]
    else if buf.length < length then
      .needMoreData
    else if msgType = MSG_OPEN ∨ msgType = MSG_UPDATE
        ∨ msgType = MSG_KEEPALIVE ∨ msgType = MSG_NOTIFICATION then
      .dispatched msgType ((buf.take length).drop HDR_LEN)
    else
      .headerError ERR_MSG_HDR ERR_MSG_HDR_BAD_MSG_TYPE [msgType]

/-! ## Peering manager (bgp.py lines 1935-2175) -/

/-- A candidate connection as the peering manager sees it: an identity (Python
compares connections by object identity; distinct `cid`s model distinct
objects), the state of its FSM, the peer id its OPEN carried
(`protocol.peerId`), and whether `isOutgoing()` holds (remote TCP port 179),
which decides the list `BGPPeering.connectionClosed` removes it from. -/
structure ConnModel where
  cid : Nat
  state : Nat
  peerId : Nat
  outgoing : Bool
deriving DecidableEq, Repr

/-- Embeds `FSM.openCollisionDump` (bgp.py lines 1120-1135) as it transforms
one candidate connection: in Idle nothing happens; in
OpenSent/OpenConfirm/Established a NOTIFICATION (Cease, 0) is sent (second
component `true`) and the connection error-closes to Idle; in Connect/Active
it error-closes without the Cease.  `_errorClose` additionally runs
`_closeConnection`, whose `BGPPeering.connectionClosed` removes the connection
from the peering's candidate lists; that peering-level side effect is modelled
by `connectionClosed`/`dumpConnection` below, where it changes results (the
live dump list of `collisionDetect`).  `setPeerId` iterates a fresh
concatenated list, so there the removal affects neither which connections are
dumped nor any property verified of it, and its model keeps the lists. -/
def openCollisionDump (c : ConnModel) : ConnModel × Bool :=
  if c.state = ST_IDLE then
    (c, false)
  else
    ({ c with state := ST_IDLE },
     c.state = ST_OPENSENT ∨ c.state = ST_OPENCONFIRM ∨ c.state = ST_ESTABLISHED)

structure PeeringModel where
  bgpId : Nat
  peerId : Option Nat
  inConnections : List ConnModel
  outConnections : List ConnModel
deriving DecidableEq, Repr

/-- Embeds `BGPPeering.setPeerId` (bgp.py lines 2118-2136): record the peer's
BGP id when none is known; do nothing when the same id arrives again; on a
conflicting id reset `peerId` to `None` and run `openCollisionDump` on every
connection in `inConnections + outConnections`.  Returns the updated peering
and the dump results (connection after the dump, whether a Cease was sent). -/
def setPeerId (p : PeeringModel) (bgpId : Nat) :
    PeeringModel × List (ConnModel × Bool) :=
  match p.peerId with
  | none => ({ p with peerId := some bgpId }, [])
  | some existing =>
      if existing ≠ bgpId then
        ({ p with peerId := none,
                  inConnections := p.inConnections.map (fun c => (openCollisionDump c).1),
                  outConnections := p.outConnections.map (fun c => (openCollisionDump c).1) },
         (p.inConnections ++ p.outConnections).map openCollisionDump)
      else
        (p, [])

/-- Python `list.remove(x)`: drop the first element comparing equal to `x`, do
nothing when absent (the source wraps the call in `try/except ValueError`,
bgp.py lines 2056-2062).  The source compares by object identity; value
equality here coincides with it whenever connections are distinct values
(distinct `cid`s). -/
def removeFirst (a : ConnModel) : List ConnModel → List ConnModel
  | [] => []
  | x :: xs => if x = a then xs else x :: removeFirst a xs

/-- Embeds `BGPPeering.connectionClosed` (bgp.py lines 2046-2062) as it
affects the candidate lists: the closed connection is removed from
`outConnections` when `isOutgoing()` and from `inConnections` otherwise.  (Its
trailing `automaticStart(idleHold=True)` only touches the peering's internal
FSM timers, not the lists.) -/
def connectionClosed (p : PeeringModel) (c : ConnModel) : PeeringModel :=
  if c.outgoing then { p with outConnections := removeFirst c p.outConnections }
  else { p with inConnections := removeFirst c p.inConnections }

/-- One `c.fsm.openCollisionDump()` as invoked with the peering in scope
(bgp.py lines 1120-1135 with `_errorClose` → `_closeConnection` →
`BGPPeering.connectionClosed`): an Idle connection returns untouched;
otherwise a Cease is sent exactly when the state is
OpenSent/OpenConfirm/Established (second component), the FSM error-closes and
the connection is removed from the peering's candidate list matching its
direction.  The dumped connection itself leaves the lists, so no surviving
list entry needs its state rewritten (a connection sits in the list matching
its `outgoing` flag). -/
def dumpConnection (p : PeeringModel) (c : ConnModel) : PeeringModel × Bool :=
  if c.state = ST_IDLE then
    (p, false)
  else
    (connectionClosed p c,
     decide (c.state = ST_OPENSENT ∨ c.state = ST_OPENCONFIRM
       ∨ c.state = ST_ESTABLISHED))

/-- The dump loop `for c in dumpList: ...` of `collisionDetect` (bgp.py lines
2169-2173), where `dumpList` ALIASES the live `self.outConnections` (when
`overOut`) or `self.inConnections` list: a Python list iterator reads index
`i` of the list's current state and advances by one, and each dump of a
non-Idle connection removes it from that very list, shifting later elements
one slot left — so the element sliding into position `i` is skipped.  The
`NotificationSent` each dump raises is caught in the loop
(`c.deferred.errback`).  Fuel argument: every iteration decreases
`length − index` by at least one (the index advances and removals only
shorten the list), so the initial list length bounds the iteration count, and
at fuel 0 the index is already past the end — the two stopping arms agree.
Returns the final peering and the connections openCollisionDump ran on, in
order. -/
def dumpLoopAux (overOut : Bool) : Nat → PeeringModel → Nat →
    PeeringModel × List ConnModel
  | 0, p, _ => (p, [])
  | fuel + 1, p, i =>
      let l := if overOut then p.outConnections else p.inConnections
      if h : i < l.length then
        let c := l.get ⟨i, h⟩
        let r := dumpLoopAux overOut fuel (dumpConnection p c).1 (i + 1)
        (r.1, c :: r.2)
      else
        (p, [])

def dumpLoop (overOut : Bool) (p : PeeringModel) : PeeringModel × List ConnModel :=
  dumpLoopAux overOut
    (if overOut then p.outConnections.length else p.inConnections.length) p 0

inductive CollisionOutcome where
  /-- The `assert self.bgpId != protocol.peerId` failed. -/
  | assertionError : CollisionOutcome
  /-- A `NotificationSent` escaped the method: the Established-wins branch
  calls `protocol.fsm.openCollisionDump()` without catching the raise it ends
  in, so `return True` on bgp.py line 2160 is reached only when the requester
  is already Idle. -/
  | notificationSent (peering : PeeringModel) : CollisionOutcome
  /-- The method returned: the final peering, the connections
  `openCollisionDump` ran on, and the returned boolean. -/
  | result (peering : PeeringModel) (dumped : List ConnModel)
      (ceaseRequester : Bool) : CollisionOutcome
deriving DecidableEq, Repr

/-- Embeds `BGPPeering.collisionDetect` (bgp.py lines 2138-2175): gather the
other candidate connections in OpenConfirm/Established (a fresh list); fewer
than one means no collision (`False`).  If one of them is Established the
requesting connection is dumped — uncaught, so the raise escapes unless the
requester was already Idle.  Otherwise the tie is broken on `self.bgpId` vs
`protocol.peerId` (asserted unequal): when the local id is smaller `dumpList`
aliases the live `self.outConnections`, when larger `self.inConnections`; the
dump loop runs over that mutating list, and the method returns
`protocol in dumpList` evaluated on the list as the loop left it — False
whenever the requester itself was dumped and removed. -/
def collisionDetect (p : PeeringModel) (protocol : ConnModel) : CollisionOutcome :=
  let openConfirmConnections :=
    (p.inConnections ++ p.outConnections).filter
      (fun c => c ≠ protocol ∧ (c.state = ST_OPENCONFIRM ∨ c.state = ST_ESTABLISHED))
  if openConfirmConnections.length < 1 then
    .result p [] false
  else if openConfirmConnections.any (fun c => c.state == ST_ESTABLISHED) then
    if protocol.state = ST_IDLE then
      .result p [protocol] true
    else
      .notificationSent (connectionClosed p protocol)
  else if p.bgpId = protocol.peerId then
    .assertionError
  else if p.bgpId < protocol.peerId then
    let r := dumpLoop true p
    .result r.1 r.2 (decide (protocol ∈ r.1.outConnections))
  else
    let r := dumpLoop false p
    .result r.1 r.2 (decide (protocol ∈ r.1.inConnections))

/-! ## Path attributes (bgp.py lines 195-284) -/

/-- The keys of `Attribute.typeToClass` (bgp.py lines 707-721): the type codes
with a recognized attribute class. -/
def knownAttrTypeCodes : List Nat := [1, 2, 3, 4, 5, 6, 7, 8, 14, 15, 257]

/-- The base class `Attribute`'s per-instance fields after `__init__`: the
four flag booleans, the instance's `typeCode` (the class-level default is
`None`; `none` here), and the raw value.  The `partial` flag is named
`partBit` (`partial` is reserved in Lean). -/
structure AttrModel where
  optional : Bool
  transitive : Bool
  partBit : Bool
  extendedLength : Bool
  typeCode : Option Nat
  value : List Nat
deriving DecidableEq, Repr

inductive AttrError where
  /-- `AttributeException(suberror, attrTuple)`. -/
  | attributeException (suberror : Nat) : AttrError
deriving DecidableEq, Repr

/-- Embeds `Attribute.__init__` (bgp.py lines 206-235) as reached through
`Attribute.fromTuple` for a tuple whose type code is NOT in
`Attribute.typeToClass` — the only case in which `fromTuple` instantiates the
base class, whose `_initFromTuple` is a no-op.  The flag booleans are decoded
from the flags octet; an Optional+Transitive unrecognized attribute keeps the
type code and has its Partial bit forced on; a non-Optional unrecognized
attribute raises `AttributeException` with suberror
`ERR_MSG_UPDATE_UNRECOGNIZED_WELLKNOWN_ATTR`; an Optional non-Transitive one
is accepted as decoded. -/
def attrFromTupleUnrecognized (flags typeCode : Nat) (value : List Nat) :
    Except AttrError AttrModel :=
  let a : AttrModel :=
    { optional := Nat.land flags ATTR_OPTIONAL ≠ 0
      transitive := Nat.land flags ATTR_TRANSITIVE ≠ 0
      partBit := Nat.land flags ATTR_PARTIAL ≠ 0
      extendedLength := Nat.land flags ATTR_EXTENDED_LEN ≠ 0
      typeCode := none
      value := value }
  if a.optional ∧ a.transitive then
    .ok { a with typeCode := some typeCode, partBit := true }
  else if ¬ a.optional then
    .error (.attributeException ERR_MSG_UPDATE_UNRECOGNIZED_WELLKNOWN_ATTR)
  else
    .ok a

/-! ## Advertisement diff (bgp.py lines 2277-2288) -/

/-- Embeds `NaiveBGPPeering._calculateChanges` at one address family key `af`
present in both dicts: `withdrawals[af] = advertised[af] - toAdvertise[af]`
and `updates[af] = toAdvertise[af] - advertised[af]` (advertisements
abstracted to their identities). -/
def calculateChanges (advertised toAdvertise : Finset Nat) :
    Finset Nat × Finset Nat :=
  (advertised \ toAdvertise, toAdvertise \ advertised)

/-! ## Claim theorems -/

/-- C3: the spec's attribute round-trip `decode(encode(a)) == a` cannot hold
for `MPUnreachNLRIAttribute`: its `encode` (bgp.py line 685) calls
`BGP.encodedPrefixes`, an attribute class `BGP` does not have (the encoder is
`BGP.encodePrefixes`), so encoding any MP-Unreach-NLRI attribute — here the
default-constructed `(AFI_INET6, SAFI_UNICAST, [])` value — raises
`AttributeError` instead of producing bytes. -/
theorem mpUnreachNLRIEncode_attributeError :
    mpUnreachNLRIEncode (AFI_INET6, SAFI_UNICAST, [])
      = Except.error PyError.attributeError := rfl

/-- C4: `negotiateHoldTime` sets the FSM hold time to the minimum of the local
and peer hold times; it raises the OPEN message error UnacceptableHoldTime
(error 2, suberror 6) exactly when that minimum is non-zero and below 3; when
no error is raised the derived keepAliveTime is the negotiated hold time
divided by 3; local 180 with peer 90 yields hold 90 and keepAlive 30. -/
theorem negotiateHoldTime_spec (fsm : FSMModel) (peerHoldTime : Nat) :
    (negotiateHoldTime fsm peerHoldTime).1.holdTime = min fsm.holdTime peerHoldTime ∧
    ((negotiateHoldTime fsm peerHoldTime).2
        = some (PyError.notificationSent ERR_MSG_OPEN ERR_MSG_OPEN_UNACCPT_HOLD_TIME [])
      ↔ min fsm.holdTime peerHoldTime ≠ 0 ∧ min fsm.holdTime peerHoldTime < 3) ∧
    ((negotiateHoldTime fsm peerHoldTime).2 = none →
      (negotiateHoldTime fsm peerHoldTime).1.keepAliveTime
        = min fsm.holdTime peerHoldTime / 3) ∧
    (fsm.holdTime = 180 → peerHoldTime = 90 →
      (negotiateHoldTime fsm peerHoldTime).1.holdTime = 90 ∧
      (negotiateHoldTime fsm peerHoldTime).1.keepAliveTime = 30) := by
  simp only [negotiateHoldTime, FSMModel.errorClose]
  split_ifs with h
  · refine ⟨rfl, by simpa using h, by simp, ?_⟩
    rintro h180 rfl
    rw [h180] at h
    omega
  · refine ⟨rfl, by simpa using h, fun _ => rfl, ?_⟩
    rintro h180 rfl
    simp [h180]

/-- C6: for an address family present in both dicts, the withdrawal and
update sets computed by `_calculateChanges` are disjoint, and
`toAdvertise = (advertised ∪ updates) \ withdrawals`. -/
theorem calculateChanges_spec (advertised toAdvertise : Finset Nat) :
    Disjoint (calculateChanges advertised toAdvertise).1
      (calculateChanges advertised toAdvertise).2 ∧
    toAdvertise = (advertised ∪ (calculateChanges advertised toAdvertise).2)
      \ (calculateChanges advertised toAdvertise).1 := by
  constructor
  · rw [Finset.disjoint_left]
    intro a ha hb
    simp only [calculateChanges, Finset.mem_sdiff] at ha hb
    exact ha.2 hb.1
  · ext x
    simp only [calculateChanges, Finset.mem_sdiff, Finset.mem_union]
    tauto

/-- C9: `setPeerId` records the peer id when none is known yet, leaves
everything unchanged when the same id arrives again, and on a conflicting id
resets `peerId` to `None` and runs the open-collision dump on every candidate
connection in `inConnections` and `outConnections`. -/
theorem setPeerId_spec (p : PeeringModel) (bgpId : Nat) :
    (p.peerId = none → setPeerId p bgpId = ({ p with peerId := some bgpId }, [])) ∧
    (p.peerId = some bgpId → setPeerId p bgpId = (p, [])) ∧
    (∀ x, p.peerId = some x → x ≠ bgpId →
      (setPeerId p bgpId).1.peerId = none ∧
      (setPeerId p bgpId).2
        = (p.inConnections ++ p.outConnections).map openCollisionDump) := by
  refine ⟨fun h => ?_, fun h => ?_, fun x hx hne => ?_⟩
  · simp [setPeerId, h]
  · simp [setPeerId, h]
  · simp [setPeerId, hx, hne]

/-- C2: in state Connect or Active with the DelayOpenTimer active and a
non-zero hold time, `FSM.openReceived` completes initialization and sends the
OPEN and KEEPALIVE, but then raises `AttributeError` on the misspelled
`self.KeepAliveTimer`: neither the KeepAlive nor the Hold timer is armed and
the FSM never reaches OpenConfirm, contradicting the spec's intended
transition (which the spec itself flags as an open question). -/
theorem openReceived_delayOpen_attributeError (fsm : FSMModel)
    (hst : fsm.state = ST_CONNECT ∨ fsm.state = ST_ACTIVE)
    (hdo : fsm.delayOpenTimer.isSome = true)
    (hht : fsm.holdTime ≠ 0) :
    fsm.openReceived.2.2 = some PyError.attributeError ∧
    fsm.openReceived.2.1
      = [FSMAction.completeInit, FSMAction.sendOpen, FSMAction.sendKeepAlive] ∧
    fsm.openReceived.1.state ≠ ST_OPENCONFIRM ∧
    fsm.openReceived.1.keepAliveTimer = fsm.keepAliveTimer ∧
    fsm.openReceived.1.holdTimer = fsm.holdTimer := by
  unfold FSMModel.openReceived
  rw [if_pos hst, if_pos hdo, if_pos hht]
  refine ⟨rfl, rfl, ?_, rfl, rfl⟩
  rcases hst with h | h <;> simp [h, ST_CONNECT, ST_ACTIVE, ST_OPENCONFIRM]

/-- Witness for C2 at a concrete FSM: state Connect, DelayOpenTimer armed,
hold time 180. -/
theorem openReceived_delayOpen_attributeError_witness :
    (FSMModel.openReceived
      { state := ST_CONNECT, holdTime := 180, keepAliveTime := 60,
        connectRetryCounter := 0, connectRetryTime := 30,
        connectRetryTimer := some 30, holdTimer := none, keepAliveTimer := none,
        delayOpen := true, delayOpenTime := 30, delayOpenTimer := some 30,
        idleHoldTime := 30, idleHoldTimer := none }).2.2
      = some PyError.attributeError :=
  (openReceived_delayOpen_attributeError
    { state := ST_CONNECT, holdTime := 180, keepAliveTime := 60,
      connectRetryCounter := 0, connectRetryTime := 30,
      connectRetryTimer := some 30, holdTimer := none, keepAliveTimer := none,
      delayOpen := true, delayOpenTime := 30, delayOpenTimer := some 30,
      idleHoldTime := 30, idleHoldTimer := none }
    (Or.inl rfl) rfl (by decide)).1

/-- C10: constructing an `Attribute` from a wire tuple with an unrecognized
type code raises UnrecognizedWellKnownAttribute (suberror 2) exactly when the
Optional flag bit is clear; an Optional, non-Transitive unrecognized attribute
is accepted silently with its raw value and its Partial bit taken from the
wire (not forced); only the Optional+Transitive case forces Partial to 1. -/
theorem attrFromTupleUnrecognized_spec (flags typeCode : Nat) (value : List Nat)
    (_hunk : typeCode ∉ knownAttrTypeCodes) :
    (attrFromTupleUnrecognized flags typeCode value
        = Except.error (.attributeException ERR_MSG_UPDATE_UNRECOGNIZED_WELLKNOWN_ATTR)
      ↔ Nat.land flags ATTR_OPTIONAL = 0) ∧
    (Nat.land flags ATTR_OPTIONAL ≠ 0 → Nat.land flags ATTR_TRANSITIVE = 0 →
      attrFromTupleUnrecognized flags typeCode value
        = Except.ok { optional := true, transitive := false,
                      partBit := Nat.land flags ATTR_PARTIAL ≠ 0,
                      extendedLength := Nat.land flags ATTR_EXTENDED_LEN ≠ 0,
                      typeCode := none, value := value }) ∧
    (Nat.land flags ATTR_OPTIONAL ≠ 0 → Nat.land flags ATTR_TRANSITIVE ≠ 0 →
      attrFromTupleUnrecognized flags typeCode value
        = Except.ok { optional := true, transitive := true, partBit := true,
                      extendedLength := Nat.land flags ATTR_EXTENDED_LEN ≠ 0,
                      typeCode := some typeCode, value := value }) := by
  by_cases hO : Nat.land flags ATTR_OPTIONAL = 0 <;>
    by_cases hT : Nat.land flags ATTR_TRANSITIVE = 0 <;>
      simp [attrFromTupleUnrecognized, hO, hT]

/-- C1 counterexample: local BGP-Id 1.0.0.1 (16777217) smaller than the
peer's 2.0.0.2 (33554434), one inbound and one outbound candidate both in
OpenConfirm, none Established, requester the outbound candidate.  The claim
predicts that `inConnections` receives the dump and that True is returned
because the requester is in the dumped list.  The code instead dumps the
(live) `outConnections` list — the requester is dumped and removed from it,
so the final membership test `protocol in dumpList` on the emptied list
returns False even though the requester is in the dumped set. -/
theorem collisionDetect_claim_counterexample :
    collisionDetect
      { bgpId := 16777217, peerId := some 33554434,
        inConnections :=
          [{ cid := 0, state := ST_OPENCONFIRM, peerId := 33554434, outgoing := false }],
        outConnections :=
          [{ cid := 1, state := ST_OPENCONFIRM, peerId := 33554434, outgoing := true }] }
      { cid := 1, state := ST_OPENCONFIRM, peerId := 33554434, outgoing := true }
      = CollisionOutcome.result
          { bgpId := 16777217, peerId := some 33554434,
            inConnections :=
              [{ cid := 0, state := ST_OPENCONFIRM, peerId := 33554434, outgoing := false }],
            outConnections := [] }
          [{ cid := 1, state := ST_OPENCONFIRM, peerId := 33554434, outgoing := true }]
          false ∧
    16777217 < 33554434 ∧
    ({ cid := 1, state := ST_OPENCONFIRM, peerId := 33554434, outgoing := true } : ConnModel)
      ∈ [({ cid := 1, state := ST_OPENCONFIRM, peerId := 33554434, outgoing := true } : ConnModel)] ∧
    ({ cid := 0, state := ST_OPENCONFIRM, peerId := 33554434, outgoing := false } : ConnModel)
      ∉ [({ cid := 1, state := ST_OPENCONFIRM, peerId := 33554434, outgoing := true } : ConnModel)] := by
  decide

/-- C1 (amended): when no other candidate is Established, a collision exists
and the local BGP-Id differs from the peer's, the side with the numerically
smaller local BGP-Id dumps its OUTBOUND list: local < peer runs the dump loop
over the live `outConnections` list, local > peer over `inConnections`; the
method returns True exactly when the requesting connection is still a member
of that (mutated) dump list once the loop is done — in particular False when
the requester itself was dumped and thereby removed from it. -/
theorem collisionDetect_tiebreak (p : PeeringModel) (protocol : ConnModel)
    (hcoll : ((p.inConnections ++ p.outConnections).filter
        (fun c => c ≠ protocol ∧ (c.state = ST_OPENCONFIRM ∨ c.state = ST_ESTABLISHED))).length ≥ 1)
    (hnoest : ∀ c ∈ (p.inConnections ++ p.outConnections).filter
        (fun c => c ≠ protocol ∧ (c.state = ST_OPENCONFIRM ∨ c.state = ST_ESTABLISHED)),
        c.state ≠ ST_ESTABLISHED)
    (hne : p.bgpId ≠ protocol.peerId) :
    (p.bgpId < protocol.peerId →
      collisionDetect p protocol
        = CollisionOutcome.result (dumpLoop true p).1 (dumpLoop true p).2
            (decide (protocol ∈ (dumpLoop true p).1.outConnections))) ∧
    (protocol.peerId < p.bgpId →
      collisionDetect p protocol
        = CollisionOutcome.result (dumpLoop false p).1 (dumpLoop false p).2
            (decide (protocol ∈ (dumpLoop false p).1.inConnections))) ∧
    (∀ p' dumped b, collisionDetect p protocol = CollisionOutcome.result p' dumped b →
      (b = true ↔ protocol ∈ (if p.bgpId < protocol.peerId then p'.outConnections
                              else p'.inConnections))) := by
  unfold collisionDetect
  rw [if_neg (by omega), if_neg ?hany, if_neg hne]
  case hany =>
    intro h
    obtain ⟨c, hc, hcs⟩ := List.any_eq_true.mp h
    exact hnoest c hc (by simpa using hcs)
  by_cases hlt : p.bgpId < protocol.peerId
  · rw [if_pos hlt]
    exact ⟨fun _ => rfl, fun hgt => absurd hlt (by omega), by
      rintro p' dumped b ⟨rfl, rfl, rfl⟩
      simp [hlt]⟩
  · rw [if_neg hlt]
    exact ⟨fun h => absurd h hlt, fun _ => rfl, by
      rintro p' dumped b ⟨rfl, rfl, rfl⟩
      simp [hlt]⟩

/-- Witness for C1's amended theorem at the spec's concrete scenario: local
1.0.0.1, peer 2.0.0.2, both candidates in OpenConfirm, requester outbound.
The dump loop runs over the live outConnections list, removes the dumped
requester from it, and the method returns False. -/
theorem collisionDetect_tiebreak_witness :
    collisionDetect
      { bgpId := 16777217, peerId := some 33554434,
        inConnections :=
          [{ cid := 10, state := ST_OPENCONFIRM, peerId := 33554434, outgoing := false }],
        outConnections :=
          [{ cid := 11, state := ST_OPENCONFIRM, peerId := 33554434, outgoing := true }] }
      { cid := 11, state := ST_OPENCONFIRM, peerId := 33554434, outgoing := true }
      = CollisionOutcome.result
          { bgpId := 16777217, peerId := some 33554434,
            inConnections :=
              [{ cid := 10, state := ST_OPENCONFIRM, peerId := 33554434, outgoing := false }],
            outConnections := [] }
          [{ cid := 11, state := ST_OPENCONFIRM, peerId := 33554434, outgoing := true }]
          false :=
  (collisionDetect_tiebreak
    { bgpId := 16777217, peerId := some 33554434,
      inConnections :=
        [{ cid := 10, state := ST_OPENCONFIRM, peerId := 33554434, outgoing := false }],
      outConnections :=
        [{ cid := 11, state := ST_OPENCONFIRM, peerId := 33554434, outgoing := true }] }
    { cid := 11, state := ST_OPENCONFIRM, peerId := 33554434, outgoing := true }
    (by decide) (by decide) (by decide)).1 (by decide)

/-- Witness for C10 at flags 0xC0 (Optional+Transitive) and the unrecognized
type code 99: the attribute is kept with Partial forced on. -/
theorem attrFromTupleUnrecognized_witness :
    attrFromTupleUnrecognized 192 99 [7, 7]
      = Except.ok { optional := true, transitive := true, partBit := true,
                    extendedLength := false, typeCode := some 99, value := [7, 7] } :=
  (attrFromTupleUnrecognized_spec 192 99 [7, 7] (by decide)).2.2 (by decide) (by decide)

/-- C8: with at least one complete 19-octet header buffered, `parseBuffer`
classifies header errors: a first 16 octets not all-ones raises
(1, ConnectionNotSynchronized = 1); otherwise a length field below 19 or above
4096 raises (1, BadMessageLength = 2) carrying the 16-bit length as data;
otherwise, once the whole message is available, a type octet outside
{1, 2, 3, 4} raises (1, BadMessageType = 3) carrying the type octet. -/
theorem parseBuffer_headerErrors (buf : List Nat)
    (hlen : HDR_LEN ≤ buf.length) (hbytes : ∀ b ∈ buf, b < 256) :
    (buf.take 16 ≠ List.replicate 16 255 →
      parseBuffer buf = .headerError ERR_MSG_HDR ERR_MSG_HDR_CONN_NOT_SYNC []) ∧
    (buf.take 16 = List.replicate 16 255 →
      ((256 * buf.getD 16 0 + buf.getD 17 0 < HDR_LEN
          ∨ MAX_LEN < 256 * buf.getD 16 0 + buf.getD 17 0) →
        parseBuffer buf = .headerError ERR_MSG_HDR ERR_MSG_HDR_BAD_MSG_LEN
          [(256 * buf.getD 16 0 + buf.getD 17 0) / 256,
           (256 * buf.getD 16 0 + buf.getD 17 0) % 256]) ∧
      (HDR_LEN ≤ 256 * buf.getD 16 0 + buf.getD 17 0 →
        256 * buf.getD 16 0 + buf.getD 17 0 ≤ MAX_LEN →
        256 * buf.getD 16 0 + buf.getD 17 0 ≤ buf.length →
        buf.getD 18 0 ≠ MSG_OPEN → buf.getD 18 0 ≠ MSG_UPDATE →
        buf.getD 18 0 ≠ MSG_KEEPALIVE → buf.getD 18 0 ≠ MSG_NOTIFICATION →
        parseBuffer buf = .headerError ERR_MSG_HDR ERR_MSG_HDR_BAD_MSG_TYPE
          [buf.getD 18 0])) := by
  have h16 : buf.getD 16 0 < 256 := by
    apply hbytes
    rw [List.getD_eq_getElem buf 0 (by unfold HDR_LEN at hlen; omega)]
    exact List.getElem_mem _
  have h17 : buf.getD 17 0 < 256 := by
    apply hbytes
    rw [List.getD_eq_getElem buf 0 (by unfold HDR_LEN at hlen; omega)]
    exact List.getElem_mem _
  unfold parseBuffer
  rw [if_neg (by omega)]
  constructor
  · intro hmark
    rw [if_pos hmark]
  · intro hmark
    rw [if_neg (by simpa using hmark)]
    constructor
    · intro hbad
      rw [if_pos hbad]
      have : 256 * buf.getD 16 0 + buf.getD 17 0 < 65536 := by omega
      congr 1
      have : (256 * buf.getD 16 0 + buf.getD 17 0) / 256 % 256
          = (256 * buf.getD 16 0 + buf.getD 17 0) / 256 := by
        apply Nat.mod_eq_of_lt
        omega
      rw [this]
    · intro hlo hhi havail h1 h2 h3 h4
      rw [if_neg (by omega), if_neg (by omega),
          if_neg (by push_neg; exact ⟨h1, h2, h3, h4⟩)]

/-- Witness for C8 at a concrete buffer: a correct marker, length 19, and the
unknown message type 9 yield header error (1, 3) with data [9]. -/
theorem parseBuffer_headerErrors_witness :
    parseBuffer (List.replicate 16 255 ++ [0, 19, 9])
      = ParseBufferResult.headerError ERR_MSG_HDR ERR_MSG_HDR_BAD_MSG_TYPE [9] :=
  ((parseBuffer_headerErrors (List.replicate 16 255 ++ [0, 19, 9])
      (by decide) (by decide)).2 (by decide)).2
    (by decide) (by decide) (by decide) (by decide) (by decide) (by decide) (by decide)

/-! ## Lemmas for the UPDATE packer -/

theorem sTake_length (n : Nat) (l : List Nat) : (sTake n l).length = n := by
  simp only [sTake, List.length_append, List.length_take, List.length_replicate]
  omega

theorem packedPrefix_length (p : IPPrefix) :
    (packedPrefix p).length = octetLen p.plen + 1 := by
  simp [packedPrefix, sTake_length]

/-- Prefixes encoded plus prefixes left equals prefixes given. -/
theorem encodeSomePrefixesAux_count (maxLen : Nat) (P : List IPPrefix) :
    ∀ bw, (encodeSomePrefixesAux maxLen P bw).1
        + (encodeSomePrefixesAux maxLen P bw).2.2.length = P.length := by
  induction P with
  | nil => intro bw; simp [encodeSomePrefixesAux]
  | cons p rest ih =>
      intro bw
      simp only [encodeSomePrefixesAux]
      split_ifs with h
      · have := ih (bw + (octetLen p.plen + 1))
        simp only [List.length_cons]
        omega
      · simp

/-- The octets written never outgrow the budget. -/
theorem encodeSomePrefixesAux_size (maxLen : Nat) (P : List IPPrefix) :
    ∀ bw, bw ≤ maxLen →
      bw + (encodeSomePrefixesAux maxLen P bw).2.1.length ≤ maxLen := by
  induction P with
  | nil => intro bw hbw; simpa [encodeSomePrefixesAux] using hbw
  | cons p rest ih =>
      intro bw hbw
      simp only [encodeSomePrefixesAux]
      split_ifs with h
      · have hbw' : bw + (octetLen p.plen + 1) ≤ maxLen := by omega
        have := ih (bw + (octetLen p.plen + 1)) hbw'
        simp only [List.length_append, packedPrefix_length]
        omega
      · simpa using hbw

/-- C5: on a freshly constructed (empty) UPDATE message, `addSomeWithdrawals`
returns a count equal to the number of prefixes removed from the given set
(its size before minus its size after), and leaves the total encoded message
length at most 4096 octets. -/
theorem addSomeWithdrawals_spec (P : List IPPrefix) :
    (BGPUpdateMessage.empty.addSomeWithdrawals P).2.1
      = P.length - (BGPUpdateMessage.empty.addSomeWithdrawals P).2.2.length ∧
    (BGPUpdateMessage.empty.addSomeWithdrawals P).1.wireLen ≤ MAX_LEN := by
  constructor
  · have := encodeSomePrefixesAux_count (BGPUpdateMessage.empty.freeSpace) P 0
    simp only [BGPUpdateMessage.addSomeWithdrawals, encodeSomePrefixes]
    omega
  · have hfree : BGPUpdateMessage.empty.freeSpace = 4073 := by
      simp [BGPUpdateMessage.freeSpace, BGPUpdateMessage.wireLen,
        BGPUpdateMessage.empty, HDR_LEN, MAX_LEN]
    have := encodeSomePrefixesAux_size (BGPUpdateMessage.empty.freeSpace) P 0
      (by omega)
    simp only [BGPUpdateMessage.addSomeWithdrawals, encodeSomePrefixes,
      BGPUpdateMessage.wireLen, BGPUpdateMessage.empty, List.nil_append,
      List.length_nil, HDR_LEN, MAX_LEN] at *
    omega

/-! ## Lemmas for the prefix codec -/

theorem famOctets_pos (afi : Nat) : 0 < famOctets afi := by
  unfold famOctets
  split <;> omega

theorem octetLen_le (plen F : Nat) (h : plen ≤ 8 * F) : octetLen plen ≤ F := by
  unfold octetLen
  split_ifs <;> omega

theorem octetLen_sub8 (bits : Nat) (h : 8 ≤ bits) :
    octetLen bits = octetLen (bits - 8) + 1 := by
  unfold octetLen
  split_ifs <;> omega

theorem octetLen_pos (bits : Nat) (h : 0 < bits) : 0 < octetLen bits := by
  unfold octetLen
  split_ifs <;> omega

/-- Masking commutes with taking a prefix of the octet list. -/
theorem addrMask_take (l : List Nat) :
    ∀ bits k, addrMask bits (l.take k) = (addrMask bits l).take k := by
  induction l with
  | nil => intro bits k; simp [addrMask]
  | cons b rest ih =>
      intro bits k
      cases k with
      | zero => simp [addrMask]
      | succ k => simp only [List.take_succ_cons, addrMask, ih]

/-- An octet list with all bits beyond `bits` zero is all-zero past the first
`octetLen bits` octets. -/
theorem addrMask_fix_drop (l : List Nat) :
    ∀ bits, addrMask bits l = l →
      l.drop (octetLen bits) = List.replicate (l.length - octetLen bits) 0 := by
  induction l with
  | nil => intro bits _; simp
  | cons b rest ih =>
      intro bits hfix
      rw [addrMask] at hfix
      injection hfix with hb ht
      by_cases h8 : 8 ≤ bits
      · rw [octetLen_sub8 bits h8, List.drop_succ_cons, ih (bits - 8) ht]
        congr 1
        simp only [List.length_cons]
        omega
      · by_cases h0 : bits = 0
        · subst h0
          rw [if_neg (by omega), if_pos rfl] at hb
          have ht0 : addrMask 0 rest = rest := by
            simpa using ht
          have hrest := ih 0 ht0
          have holen : octetLen 0 = 0 := by simp [octetLen]
          rw [holen] at hrest ⊢
          simp only [List.drop_zero] at hrest ⊢
          rw [← hb, hrest]
          simp [List.replicate_succ]
        · have holen : octetLen bits = 1 := by
            unfold octetLen
            split_ifs <;> omega
          rw [holen, List.drop_succ_cons, List.drop_zero]
          have ht0 : addrMask 0 rest = rest := by
            have hz : bits - 8 = 0 := by omega
            rwa [hz] at ht
          have hrest := ih 0 ht0
          have holen0 : octetLen 0 = 0 := by simp [octetLen]
          rw [holen0] at hrest
          simp only [List.drop_zero, Nat.sub_zero] at hrest
          have hlen : (b :: rest).length - 1 = rest.length := by
            simp only [List.length_cons]
            omega
          rw [hlen]
          exact hrest

/-- For an octet list with all bits beyond `bits` zero, re-masking the last
octet of the first `octetLen bits` octets changes nothing. -/
theorem addrMask_fix_maskLast (l : List Nat) :
    ∀ bits, addrMask bits l = l → 0 < bits % 8 → bits ≤ 8 * l.length →
      maskLast (bits % 8) (l.take (octetLen bits)) = l.take (octetLen bits) := by
  induction l with
  | nil => intro bits _ _ _; simp [maskLast]
  | cons b rest ih =>
      intro bits hfix hmod hle
      rw [addrMask] at hfix
      injection hfix with hb ht
      by_cases h8 : 8 ≤ bits
      · have hgt : 8 < bits := by omega
        have hrestlen : 0 < rest.length := by
          simp only [List.length_cons] at hle
          omega
        rw [octetLen_sub8 bits h8, List.take_succ_cons]
        have holen' : 0 < octetLen (bits - 8) := octetLen_pos _ (by omega)
        obtain ⟨x, xs, hx⟩ : ∃ x xs, rest.take (octetLen (bits - 8)) = x :: xs := by
          cases hr : rest.take (octetLen (bits - 8)) with
          | nil =>
              rcases List.take_eq_nil_iff.mp hr with h | h
              · omega
              · rw [h] at hrestlen
                simp at hrestlen
          | cons x xs => exact ⟨x, xs, rfl⟩
        have hmod' : (bits - 8) % 8 = bits % 8 := by omega
        have hih := ih (bits - 8) ht (by omega)
          (by simp only [List.length_cons] at hle; omega)
        rw [hmod'] at hih
        rw [hx] at hih ⊢
        rw [maskLast, hih]
      · have hmod' : bits % 8 = bits := Nat.mod_eq_of_lt (by omega)
        have holen : octetLen bits = 1 := by
          unfold octetLen
          split_ifs <;> omega
        rw [holen, List.take_succ_cons, List.take_zero, hmod', maskLast]
        rw [if_neg h8, if_neg (by omega)] at hb
        rw [hb]

/-- C7: for every valid `IPPrefix` (length within the family bound, stored
bits beyond the prefix length zero), parsing the encoding of the
singleton list with the matching address family yields exactly that list
back, and all bits beyond the prefix length in the encoded octets (in
particular in the last octet) are zero. -/
theorem parseEncodedPrefixList_roundtrip (p : IPPrefix) (h : p.valid) :
    parseEncodedPrefixList p.afi (encodePrefixes [p]) = Except.ok [p] ∧
    addrMask p.plen ((encodePrefixes [p]).drop 1) = (encodePrefixes [p]).drop 1 := by
  obtain ⟨hL, hbytes, hplen, hfam, hfix⟩ := h
  have hF : 0 < famOctets p.afi := famOctets_pos p.afi
  have hoF : octetLen p.plen ≤ famOctets p.afi := octetLen_le _ _ hplen
  have henc : encodePrefixes [p] = p.plen :: p.addr.take (octetLen p.plen) := by
    simp [encodePrefixes, IPPrefix.packed]
  have htt : (p.addr.take (octetLen p.plen)).take (octetLen p.plen)
      = p.addr.take (octetLen p.plen) := by
    rw [List.take_take, Nat.min_self]
  refine ⟨?_, ?_⟩
  · rw [henc]
    have hbound : ¬ ((p.afi = AFI_INET ∧ 32 < p.plen)
        ∨ (p.afi = AFI_INET6 ∧ 128 < p.plen)) := by
      rcases hfam with hf | hf <;> rw [hf] at hplen ⊢ <;>
        simp [famOctets, AFI_INET, AFI_INET6] at hplen ⊢ <;> omega
    simp only [parseEncodedPrefixList]
    rw [if_neg hbound]
    have hidx : ¬ (p.plen % 8 > 0
        ∧ (p.addr.take (octetLen p.plen)).take (octetLen p.plen) = []) := by
      rintro ⟨hm, hnil⟩
      rw [htt] at hnil
      rcases List.take_eq_nil_iff.mp hnil with h0 | h0
      · have := octetLen_pos p.plen (by omega)
        omega
      · rw [h0] at hL
        simp only [List.length_nil] at hL
        omega
    rw [if_neg hidx]
    have hdropnil : (p.addr.take (octetLen p.plen)).drop (octetLen p.plen) = [] := by
      apply List.drop_eq_nil_of_le
      rw [List.length_take]
      exact min_le_left _ _
    rw [hdropnil]
    have hnil : parseEncodedPrefixList p.afi ([] : List Nat) = .ok [] := by
      simp only [parseEncodedPrefixList]
    rw [hnil, htt]
    have hpd : (if p.plen % 8 > 0 then
          maskLast (p.plen % 8) (p.addr.take (octetLen p.plen))
        else p.addr.take (octetLen p.plen)) = p.addr.take (octetLen p.plen) := by
      split_ifs with hm
      · exact addrMask_fix_maskLast p.addr p.plen hfix hm (by rw [hL]; exact hplen)
      · rfl
    rw [hpd]
    have hlen' : (p.addr.take (octetLen p.plen)).length = octetLen p.plen := by
      rw [List.length_take, hL]
      omega
    have hdrop : p.addr.drop (octetLen p.plen)
        = List.replicate (famOctets p.afi - octetLen p.plen) 0 := by
      have := addrMask_fix_drop p.addr p.plen hfix
      rwa [hL] at this
    have hof : IPPrefix.ofOctets (p.addr.take (octetLen p.plen)) p.plen p.afi = p := by
      unfold IPPrefix.ofOctets
      have haddr : (p.addr.take (octetLen p.plen)).take (famOctets p.afi)
          ++ List.replicate (famOctets p.afi - (p.addr.take (octetLen p.plen)).length) 0
          = p.addr := by
        rw [hlen', List.take_take, min_eq_right hoF, ← hdrop, List.take_append_drop]
      rw [haddr]
    rw [hof]
  · rw [henc]
    simp only [List.drop_one, List.tail_cons]
    rw [addrMask_take, hfix]

/-- Witness for C7 at the concrete valid prefix 10.16.0.0/12 (IPv4). -/
theorem parseEncodedPrefixList_roundtrip_witness :
    parseEncodedPrefixList 1
      (encodePrefixes [{ afi := 1, plen := 12, addr := [10, 16, 0, 0] }])
      = Except.ok [{ afi := 1, plen := 12, addr := [10, 16, 0, 0] }] :=
  (parseEncodedPrefixList_roundtrip
    { afi := 1, plen := 12, addr := [10, 16, 0, 0] } (by decide)).1

end PyBal
